import Mathlib

/-!
Verification of the Deck AI API service (quiz generation / moderation).

This file gives a shallow embedding of the core logic of the repository:

* `selectQuestions` / `numToReturnOf` — the shared selection tail of
  `geminiQuizService` (src/functions/src/services/quizService.js,
  lines 143-156, repeated verbatim at 203-216 and 229-242);
* `aggregateModerationResults` — the verdict aggregator
  (moderationService.js, lines 118-141);
* `createPublishRequest` — the publish-request record builder
  (publish-request repository, lines 30-43);
* `geminiQuizService` — the full quiz reconciliation state machine, with
  the external collaborators (deck store, quiz store, generation
  capability, shuffle) supplied as an explicit environment, and the
  persisted state (quiz document, deck watermark, tmp files) threaded
  through so that persistence effects are visible in the result;
* `geminiModerationService` — the moderation orchestrator of the
  moderation service variant that records a publish request.

External collaborator calls are modelled as environment-supplied results
(`Except String _` where the collaborator can throw); JavaScript values
that may be `undefined` / not-an-array are modelled as `Option`.
Timestamps are natural numbers; `timeStamp` models the single
server-timestamp sentinel imported from the firebase config module.
-/

/-- A JavaScript `Error` value: a `name` (default "Error") and a `message`.
The quiz service catch block dispatches on `message` only. -/
structure JsError where
  name : String
  message : String
deriving DecidableEq, Repr

/-- Plain `new Error(msg)`: name is the default "Error". -/
def jsError (msg : String) : JsError := ⟨"Error", msg⟩

/-- The error thrown when the requested count exceeds the available
questions: quizService.js lines 150-153 sets `error.name` to
EXCEEDS_AVAILABLE_CARDS but leaves the human-readable `message`. -/
def exceedsError : JsError :=
  ⟨"EXCEEDS_AVAILABLE_CARDS", "Requested number of flashcards exceeds available cards."⟩

/-- The server-timestamp sentinel (`timeStamp` imported from
firebaseAdminConfig.js); a single module-level constant, so every field
assigned from it receives the same value. The concrete value is
irrelevant to the logic. -/
def timeStamp : Nat := 0

/-- A generated multiple-choice question. Its content is opaque to the
reconciliation logic, which only moves questions around; we keep the two
fields the service ever mentions. -/
structure Question where
  question : String
  related_flashcard_id : String
deriving DecidableEq, Repr

/-- A flashcard (term/definition pair with id). -/
structure Flashcard where
  id : String
  term : String
  definition : String
deriving DecidableEq, Repr

/-! ## Selection (the shared SELECT tail)

quizService.js lines 143-156 (and the identical copies at 203-216 and
229-242): default the count to `Math.ceil(length * 0.5)` when
`numOfQuiz` is null/undefined, throw the EXCEEDS error when the count
exceeds the length, otherwise `slice(0, numToReturn)`. The requested
count is a natural number: the controller (quizController.js lines
37-47) only forwards `null` or an integer in [5, 50].
`Math.ceil(len * 0.5)` on a natural `len` is `(len + 1) / 2` in natural
division. -/

/-- The `numToReturn` computed at quizService.js lines 143-148. -/
def numToReturnOf (numOfQuiz : Option Nat) (len : Nat) : Nat :=
  match numOfQuiz with
  | none => (len + 1) / 2
  | some n => n

/-- quizService.js lines 143-156: the count check and `slice(0, n)` on
the already-shuffled list (`slice` on a prefix is `List.take`). -/
def selectQuestions {α : Type} (shuffled : List α) (numOfQuiz : Option Nat) :
    Except JsError (List α) :=
  let numToReturn := numToReturnOf numOfQuiz shuffled.length
  if numToReturn > shuffled.length then
    Except.error exceedsError
  else
    Except.ok (shuffled.take numToReturn)

/-! ## Moderation verdict aggregation -/

/-- One flagged flashcard in a moderation verdict. -/
structure FlaggedCard where
  term : String
  definition : String
  reason : String
deriving DecidableEq, Repr

/-- `response.data.overall_verdict` of one per-batch AI response.
`flagged_cards` is `Option` because the code guards with
`Array.isArray` — `none` models a missing or non-array field. -/
structure BatchVerdict where
  is_appropriate : Bool
  moderation_decision : String
  flagged_cards : Option (List FlaggedCard)
deriving DecidableEq, Repr

/-- The aggregated overall verdict: here `flagged_cards` is a plain
list, matching the code comment that it always returns an array. -/
structure OverallVerdict where
  is_appropriate : Bool
  moderation_decision : String
  flagged_cards : List FlaggedCard
deriving DecidableEq, Repr

/-- Loop body of `aggregateModerationResults` (moderationService.js
lines 123-132): state is (isAppropriate, moderationDecision,
inappropriateItems). -/
def aggregateStep (acc : Bool × String × List FlaggedCard) (response : BatchVerdict) :
    Bool × String × List FlaggedCard :=
  if !response.is_appropriate then
    (false, response.moderation_decision,
      match response.flagged_cards with
      | some l => if l.length > 0 then acc.2.2 ++ l else acc.2.2
      | none => acc.2.2)
  else
    acc

/-- moderationService.js lines 118-141 (`aggregateModerationResults`):
fold over the responses starting from the appropriate default. -/
def aggregateModerationResults (aiResponses : List BatchVerdict) : OverallVerdict :=
  let acc := aiResponses.foldl aggregateStep (true, "Content is appropriate", [])
  { is_appropriate := acc.1
    moderation_decision := acc.2.1
    flagged_cards := acc.2.2 }

/-- Modelled from the spec words of the claim (the reference fold):
start from the appropriate default; each inappropriate response in order
sets the flag to false, overwrites the decision, and appends its flagged
items (skipping empty or non-array flagged lists); appropriate
responses change nothing. Written as structural recursion threading the
state, to be compared with `aggregateModerationResults`. -/
def specAggregate (state : OverallVerdict) : List BatchVerdict → OverallVerdict
  | [] => state
  | r :: rs =>
    if r.is_appropriate then
      specAggregate state rs
    else
      specAggregate
        { is_appropriate := false
          moderation_decision := r.moderation_decision
          flagged_cards :=
            match r.flagged_cards with
            | some l => if l.length > 0 then state.flagged_cards ++ l else state.flagged_cards
            | none => state.flagged_cards } rs

/-- The initial aggregation state of the spec fold. -/
def specAggregateInit : OverallVerdict :=
  { is_appropriate := true
    moderation_decision := "Content is appropriate"
    flagged_cards := [] }

/-! ## Publish requests -/

/-- A publish-request document as built by `createPublishRequest`. -/
structure PublishRequest where
  user_id : String
  deck_id : String
  requested_at : Nat
  published_at : Nat
  status : String
  mod_verdict : String
  ai_verdict : OverallVerdict
deriving DecidableEq, Repr

/-- Publish-request repository, lines 30-43: the document literal
written by `createPublishRequest` (both timestamp fields are assigned
from the module-level `timeStamp` sentinel). -/
def createPublishRequest (userID deckID : String) (aiVerdict : OverallVerdict) :
    PublishRequest :=
  { user_id := userID
    deck_id := deckID
    requested_at := timeStamp
    published_at := timeStamp
    status := "FOR_APPROVAL"
    mod_verdict := "PENDING"
    ai_verdict := aiVerdict }

/-! ## The quiz reconciliation service

`geminiQuizService` (quizService.js lines 38-289). The persisted state
visible to the service is threaded explicitly: the single
multiple-choice quiz document of the deck, the deck watermark field
`made_to_quiz_at`, and the tmp directory contents. External
collaborators (deck store, generation capability, shuffle utility, new
quiz id allocation) are supplied in an environment record. The repo
write operations (`createQuizForDeck`, `createQuestionAndAnswer`,
`updateDeck`, `writeFile`) are modelled as succeeding; a failing write
would throw and abort the remaining steps, which no claim depends on. -/

/-- The stored multiple-choice quiz document of a deck. -/
structure StoredQuiz where
  id : String
  questions : List Question
  created_at : Nat
  updated_at : Nat
deriving DecidableEq, Repr

/-- Persisted state scoped to the one deck a request operates on. -/
structure Store where
  quiz : Option StoredQuiz
  watermark : Option Nat
  tmpFiles : List String
deriving DecidableEq, Repr

/-- `result.quiz_data` of a generation response; `quiz` is `Option`
because the code checks `Array.isArray(result.quiz_data.quiz)`. -/
structure QuizData where
  quiz : Option (List Question)
deriving DecidableEq, Repr

/-- A generation response; `quiz_data` may be missing. -/
structure GenResult where
  quiz_data : Option QuizData
deriving DecidableEq, Repr

/-- Environment of one `geminiQuizService` call: the results the
external collaborators would return during this execution. -/
structure Env where
  deckExists : Bool
  deckFlashcards : Option (List Flashcard)
  genResult : Except String GenResult
  newFlashcards : List Flashcard
  newQuizId : String
  shuffle : List Question → List Question

/-- The response envelope plus the final persisted state and whether the
generation capability was invoked. `data` holds the `quizContent`
object (the quiz with its question list replaced by the selection). -/
structure QuizOutcome where
  status : Nat
  request_owner_id : Option String
  message : String
  data : Option StoredQuiz
  store : Store
  calledGen : Bool
deriving DecidableEq, Repr

/-- Result of the try block: either the success triple
(statusCode, message, data) or the thrown error, together with the
persisted state as mutated so far and the generation flag. -/
structure TryResult where
  outcome : Except JsError (Nat × String × Option StoredQuiz)
  store : Store
  calledGen : Bool
deriving Repr

/-- The tmp staging file name used by the quiz service
(quizService.js lines 103-105). -/
def tmpQuizFile (u : String) : String := "downloadQuiz-" ++ u ++ ".txt"

/-- Writing a file into /tmp: set-like insertion (a second write to the
same path overwrites in place). -/
def addTmpFile (store : Store) (f : String) : Store :=
  { store with
    tmpFiles := if f ∈ store.tmpFiles then store.tmpFiles else store.tmpFiles ++ [f] }

/-- The shape validation applied to a generation response, shared by
both generation sites: quizService.js line 119 and line 185 test the
identical condition
`!result.quiz_data || !Array.isArray(result.quiz_data.quiz)`; on
success this yields `result.quiz_data.quiz`. -/
def quizShape : GenResult → Option (List Question)
  | ⟨some ⟨some qs⟩⟩ => some qs
  | _ => none

/-- The default failure message initialised at quizService.js line 46,
returned when no branch of the state machine fires. -/
def unsuccessfulMsg (d : String) : String :=
  "Quiz creation for deck with id:" ++ d ++ " is unsuccessful"

/-- The shared SELECT tail (quizService.js lines 138-158, repeated at
198-218 and 224-244): `getQuizByID`, shuffle, count-check and slice,
then replace the question list of the returned quiz object. The
persisted store is not touched. -/
def selectTail (env : Env) (store : Store) (numOfQuiz : Option Nat) :
    Except JsError StoredQuiz :=
  match store.quiz with
  | none => Except.error (jsError "QUIZ_NOT_FOUND")
  | some quizObject =>
    match selectQuestions (env.shuffle quizObject.questions) numOfQuiz with
    | Except.error e => Except.error e
    | Except.ok selectedQuizzes => Except.ok { quizObject with questions := selectedQuizzes }

/-- The try block of `geminiQuizService` (quizService.js lines 49-250):
input validation, the three-way path decision keyed on
(deck exists, made_to_quiz_at present, quiz document present), the
CREATE / EXTEND / REUSE bodies, and the fall-through that leaves the
initial 400 envelope untouched. -/
def quizTryBlock (env : Env) (store : Store) (deckId id : Option String)
    (numOfQuiz : Option Nat) : TryResult :=
  if deckId.getD "" = "" then
    { outcome := Except.error (jsError "INVALID_DECK_ID"), store := store, calledGen := false }
  else if id.getD "" = "" then
    { outcome := Except.error (jsError "INVALID_USER_ID"), store := store, calledGen := false }
  else
    let d := deckId.getD ""
    let u := id.getD ""
    -- getDeckAndCheckField: does the deck exist, and does it carry made_to_quiz_at
    let field_exists := store.watermark.isSome
    -- getQuizByDeckIDAndQuizType: the multiple-choice quizzes of this deck
    let quizzes : List StoredQuiz := match store.quiz with | some q => [q] | none => []
    if env.deckExists && !field_exists && quizzes.isEmpty then
      -- CREATE: no watermark and no quiz document yet
      match env.deckFlashcards with
      | none =>
        { outcome := Except.ok (400, unsuccessfulMsg d, none), store := store, calledGen := false }
      | some deckTermsAndDef =>
        if deckTermsAndDef.length > 0 then
          let store1 := addTmpFile store (tmpQuizFile u)
          match env.genResult with
          | Except.error _ =>
            { outcome := Except.error (jsError "AI_GENERATION_FAILED"),
              store := store1, calledGen := true }
          | Except.ok result =>
            match quizShape result with
            | none =>
              -- line 120: this throw is NOT wrapped by the inner try
              { outcome := Except.error
                  (jsError "Invalid AI response: quiz_data is missing or not an array"),
                store := store1, calledGen := true }
            | some questionAndAnswer =>
              -- createQuizForDeck (lines 125-131)
              let newQuiz : StoredQuiz :=
                { id := env.newQuizId, questions := [],
                  created_at := timeStamp, updated_at := timeStamp }
              let store2 := { store1 with quiz := some newQuiz }
              -- createQuestionAndAnswer (line 133)
              let store3 := { store2 with
                quiz := some { newQuiz with questions := newQuiz.questions ++ questionAndAnswer } }
              -- updateDeck made_to_quiz_at (line 136)
              let store4 := { store3 with watermark := some timeStamp }
              match selectTail env store4 numOfQuiz with
              | Except.error e =>
                { outcome := Except.error e, store := store4, calledGen := true }
              | Except.ok quizObject =>
                { outcome := Except.ok
                    (200, "Quiz creation for deck with id:" ++ d ++ " is successful",
                      some quizObject),
                  store := store4, calledGen := true }
        else
          { outcome := Except.ok (400, unsuccessfulMsg d, none), store := store, calledGen := false }
    else if quizzes.length ≥ 1 then
      -- a quiz already exists: check for new flashcards
      if env.newFlashcards.length > 0 then
        -- EXTEND
        let store1 := addTmpFile store (tmpQuizFile u)
        match env.genResult with
        | Except.error _ =>
          { outcome := Except.error (jsError "AI_GENERATION_FAILED"),
            store := store1, calledGen := true }
        | Except.ok result =>
          match quizShape result with
          | none =>
            -- line 186: thrown INSIDE the inner try, caught at 188 and
            -- rethrown as AI_GENERATION_FAILED
            { outcome := Except.error (jsError "AI_GENERATION_FAILED"),
              store := store1, calledGen := true }
          | some questionAndAnswer =>
            -- createQuestionAndAnswer appends to the existing quiz (line 193)
            let store2 := { store1 with
              quiz := store1.quiz.map
                (fun q : StoredQuiz => { q with questions := q.questions ++ questionAndAnswer }) }
            -- updateDeck made_to_quiz_at (line 196)
            let store3 := { store2 with watermark := some timeStamp }
            match selectTail env store3 numOfQuiz with
            | Except.error e =>
              { outcome := Except.error e, store := store3, calledGen := true }
            | Except.ok quizObject =>
              { outcome := Except.ok
                  (200, "Quiz creation for new flashcards in deck " ++ d ++ " is successful",
                    some quizObject),
                store := store3, calledGen := true }
      else
        -- REUSE: no new flashcards, pure read
        match selectTail env store numOfQuiz with
        | Except.error e =>
          { outcome := Except.error e, store := store, calledGen := false }
        | Except.ok quizObject =>
          { outcome := Except.ok
              (200, "There is already a quiz made for this deck in the quiz collection",
                some quizObject),
            store := store, calledGen := false }
    else
      -- fall-through: no branch fires (deck missing, or watermark present
      -- without a quiz document); the initial 400 envelope is returned
      { outcome := Except.ok (400, unsuccessfulMsg d, none), store := store, calledGen := false }

/-- The catch block (quizService.js lines 251-281): the switch is on
`error.message` (never on `error.name`); the default case also replaces
the message with the generic server-error text. -/
def quizCatch (e : JsError) : Nat × String :=
  let m := "Quiz creation failed: " ++ e.message
  if e.message = "INVALID_DECK_ID" then (400, m)
  else if e.message = "INVALID_USER_ID" then (400, m)
  else if e.message = "DECK_NOT_FOUND" then (404, m)
  else if e.message = "MISSING_MADE_TO_QUIZ_AT_FIELD" then (404, m)
  else if e.message = "NO_VALID_QUESTIONS" then (400, m)
  else if e.message = "AI_GENERATION_FAILED" then (502, m)
  else (500, "A server-side error has occurred")

/-- Assemble the response envelope from the try-block result. -/
def applyCatch (id : Option String) (t : TryResult) : QuizOutcome :=
  match t.outcome with
  | Except.ok (st, msg, dta) =>
    { status := st, request_owner_id := id, message := msg, data := dta,
      store := t.store, calledGen := t.calledGen }
  | Except.error e =>
    { status := (quizCatch e).1, request_owner_id := id, message := (quizCatch e).2,
      data := none, store := t.store, calledGen := t.calledGen }

/-- quizService.js lines 38-289: the full service. -/
def geminiQuizService (env : Env) (store : Store) (deckId id : Option String)
    (numOfQuiz : Option Nat) : QuizOutcome :=
  applyCatch id (quizTryBlock env store deckId id numOfQuiz)

/-! ## The moderation orchestrator

`geminiModerationService` of the moderation service variant that stages
the deck to a tmp file and records a publish request (lines 35-83 of
that file). Again the external calls are environment-supplied. -/

/-- `result.quiz_data` of a moderation generation response. -/
structure ModQuizData where
  overall_verdict : OverallVerdict
deriving DecidableEq, Repr

/-- A moderation generation response; `quiz_data` may be missing, in
which case reading `result.quiz_data.overall_verdict` throws a
TypeError. -/
structure ModGenResult where
  quiz_data : Option ModQuizData
deriving DecidableEq, Repr

/-- Environment of one `geminiModerationService` call. `deckFlashcards`
is the outcome of `getDeckById` (error = the repository threw, e.g.
DECK_NOT_FOUND; the value is `deck.flashcards`, `none` when not an
array, which makes `formatPrompt` throw a TypeError). `publishWrite` is
the outcome of the awaited `createPublishRequest` persistence call, and
`publishRead` the outcome of the awaited `getPublishRequestByDeckId`
call whose result is logged. -/
structure ModEnv where
  deckFlashcards : Except String (Option (List Flashcard))
  genResult : Except String ModGenResult
  publishWrite : Except String Unit
  publishRead : Except String Unit

/-- The moderation response envelope plus the tmp directory contents at
completion. -/
structure ModOutcome where
  status : Nat
  request_owner_id : String
  message : String
  data : Option ModGenResult
  tmpFiles : List String
deriving DecidableEq, Repr

/-- The tmp staging file name used by the moderation service
(lines 44-46 of the moderation service variant). -/
def tmpModFile (u : String) : String := "moderateDeck-" ++ u ++ ".txt"

/-- Writing a file into /tmp (list used as a set; rewriting the same
path overwrites in place). -/
def addTmp (tmpFiles : List String) (f : String) : List String :=
  if f ∈ tmpFiles then tmpFiles else tmpFiles ++ [f]

/-- The catch block of the moderation service (lines 65-74): 404 for
DECK_NOT_FOUND and NO_VALID_FLASHCARDS, 500 otherwise. -/
def modCatch (id : String) (msg : String) (tmpFiles : List String) : ModOutcome :=
  { status := if msg = "DECK_NOT_FOUND" then 404
      else if msg = "NO_VALID_FLASHCARDS" then 404
      else 500
    request_owner_id := id
    message := "Moderation review failed: " ++ msg
    data := none
    tmpFiles := tmpFiles }

/-- The TypeError message raised by reading a property of undefined. -/
def undefinedReadMsg : String := "Cannot read properties of undefined"

/-- Lines 35-83 of the moderation service variant: retrieve the deck,
stage the flashcards to the tmp file, invoke generation, read
`result.quiz_data.overall_verdict`, await `createPublishRequest`, await
and log `getPublishRequestByDeckId`, then answer 200 with the raw
generation result. Every throw lands in the catch block. -/
def geminiModerationService (env : ModEnv) (tmpFiles0 : List String)
    (deckId id : String) : ModOutcome :=
  match env.deckFlashcards with
  | Except.error msg => modCatch id msg tmpFiles0
  | Except.ok flashcardsOpt =>
    match flashcardsOpt with
    | none =>
      -- formatPrompt maps over a non-array value: TypeError
      modCatch id undefinedReadMsg tmpFiles0
    | some _ =>
      -- writeFile(tmpFilePath, deckToString)
      let tmpFiles1 := addTmp tmpFiles0 (tmpModFile id)
      match env.genResult with
      | Except.error msg => modCatch id msg tmpFiles1
      | Except.ok result =>
        match result.quiz_data with
        | none =>
          -- reading overall_verdict of undefined quiz_data: TypeError
          modCatch id undefinedReadMsg tmpFiles1
        | some _ =>
          -- the awaited createPublishRequest call: a failure here
          -- propagates into the catch block
          match env.publishWrite with
          | Except.error msg => modCatch id msg tmpFiles1
          | Except.ok _ =>
            -- the awaited, logged getPublishRequestByDeckId call
            match env.publishRead with
            | Except.error msg => modCatch id msg tmpFiles1
            | Except.ok _ =>
              { status := 200
                request_owner_id := id
                message := "Moderation review successful"
                data := some result
                tmpFiles := tmpFiles1 }

/-! ## Theorems -/

/-- Unfolding the spec fold into the foldl the code uses. -/
lemma specAggregate_eq_foldl (rs : List BatchVerdict) : ∀ st : OverallVerdict,
    specAggregate st rs =
      (fun acc : Bool × String × List FlaggedCard =>
        OverallVerdict.mk acc.1 acc.2.1 acc.2.2)
      (rs.foldl aggregateStep
        (st.is_appropriate, st.moderation_decision, st.flagged_cards)) := by
  induction rs with
  | nil => intro st; rfl
  | cons r rs ih =>
    intro st
    cases hr : r.is_appropriate with
    | true => simp [specAggregate, aggregateStep, hr, ih]
    | false =>
      cases hfc : r.flagged_cards with
      | none => simp [specAggregate, aggregateStep, hr, hfc, ih]
      | some l => simp [specAggregate, aggregateStep, hr, hfc, ih]

/-- C6: the verdict aggregator equals the reference fold of the spec:
starting from the appropriate default, each inappropriate response in
order clears the flag, overwrites the decision (last inappropriate
response wins) and appends its flagged items in order, skipping empty
or non-array flagged lists; appropriate responses change nothing; zero
responses yield the initial default; and by the result type
`flagged_cards` is always a list. -/
theorem C6_aggregate_matches_spec_fold (rs : List BatchVerdict) :
    aggregateModerationResults rs = specAggregate specAggregateInit rs ∧
    aggregateModerationResults [] = specAggregateInit := by
  refine ⟨?_, rfl⟩
  rw [specAggregate_eq_foldl]
  rfl

/-- C5: selection over an already-shuffled list: an absent requested
count selects the default ceil(0.5 * length) elements (which is
(length + 1) / 2 in natural arithmetic), and a present count n with
n ≤ length selects exactly the first n elements of the shuffled list
(a length-n prefix). -/
theorem C5_select_default_and_prefix {α : Type} (s : List α) (n : Nat)
    (h : n ≤ s.length) :
    selectQuestions s (some n) = Except.ok (s.take n) ∧
    selectQuestions s none = Except.ok (s.take ((s.length + 1) / 2)) ∧
    ∀ r : List α, selectQuestions s none = Except.ok r →
      r.length = (s.length + 1) / 2 := by
  refine ⟨?_, ?_, ?_⟩
  · simp [selectQuestions, numToReturnOf, Nat.not_lt.mpr h]
  · simp [selectQuestions, numToReturnOf,
      Nat.not_lt.mpr (show (s.length + 1) / 2 ≤ s.length by omega)]
  · intro r hr
    simp [selectQuestions, numToReturnOf,
      Nat.not_lt.mpr (show (s.length + 1) / 2 ≤ s.length by omega)] at hr
    subst hr
    simp [List.length_take]
    omega

/-- Witness for C5 at a concrete input: a three-element list with
requested count 2 yields the first two elements, and with the count
absent defaults to ceil(1.5) = 2 elements. -/
theorem C5_select_witness :
    selectQuestions ([10, 20, 30] : List Nat) (some 2) = Except.ok [10, 20] ∧
    selectQuestions ([10, 20, 30] : List Nat) none = Except.ok [10, 20] := by
  have h := C5_select_default_and_prefix ([10, 20, 30] : List Nat) 2 (by decide)
  exact ⟨h.1, h.2.1⟩

/-- C10: every publish-request document built by `createPublishRequest`
carries a `published_at` field (never absent), assigned at creation from
the same server-timestamp sentinel as `requested_at`, while the document
is created with status FOR_APPROVAL and mod_verdict PENDING. -/
theorem C10_publishRequest_published_at (u d : String) (v : OverallVerdict) :
    (createPublishRequest u d v).published_at = (createPublishRequest u d v).requested_at ∧
    (createPublishRequest u d v).published_at = timeStamp ∧
    (createPublishRequest u d v).status = "FOR_APPROVAL" ∧
    (createPublishRequest u d v).mod_verdict = "PENDING" :=
  ⟨rfl, rfl, rfl, rfl⟩

/-! ### Path-evaluation lemmas for the quiz service -/

/-- The persisted state after the CREATE-path mutations: a fresh quiz
holding the generated questions and the stamped watermark, on top of
the tmp write. -/
def createMutations (env : Env) (store : Store) (u : String) (qa : List Question) : Store :=
  { quiz := some { id := env.newQuizId, questions := qa, created_at := timeStamp,
                   updated_at := timeStamp },
    watermark := some timeStamp,
    tmpFiles := (addTmpFile store (tmpQuizFile u)).tmpFiles }

/-- The persisted state after the EXTEND-path mutations: the generated
questions appended to the existing quiz and the watermark stamped, on
top of the tmp write. -/
def extendMutations (store : Store) (u : String) (q : StoredQuiz) (qa : List Question) : Store :=
  { quiz := some { q with questions := q.questions ++ qa },
    watermark := some timeStamp,
    tmpFiles := (addTmpFile store (tmpQuizFile u)).tmpFiles }

/-- Evaluation of the try block on the REUSE path: a quiz exists and no
new flashcards were found. -/
lemma quizTryBlock_reuse (env : Env) (store : Store) (d u : String)
    (hd : d ≠ "") (hu : u ≠ "") (q : StoredQuiz) (hq : store.quiz = some q)
    (hnf : env.newFlashcards = []) (numOfQuiz : Option Nat) :
    quizTryBlock env store (some d) (some u) numOfQuiz =
      match selectTail env store numOfQuiz with
      | Except.error e => ⟨Except.error e, store, false⟩
      | Except.ok quizObject =>
        ⟨Except.ok (200, "There is already a quiz made for this deck in the quiz collection",
          some quizObject), store, false⟩ := by
  simp [quizTryBlock, hd, hu, hq, hnf]

/-- Evaluation of the try block on the fall-through: the watermark is
present but no quiz document exists, so neither branch fires. -/
lemma quizTryBlock_fallthrough (env : Env) (store : Store) (d u : String)
    (hd : d ≠ "") (hu : u ≠ "")
    (hw : store.watermark.isSome = true) (hq : store.quiz = none)
    (numOfQuiz : Option Nat) :
    quizTryBlock env store (some d) (some u) numOfQuiz =
      ⟨Except.ok (400, unsuccessfulMsg d, none), store, false⟩ := by
  simp [quizTryBlock, hd, hu, hw, hq]

/-- Evaluation of the try block on the CREATE path with a successful,
well-shaped generation result: all three mutations are performed, then
the SELECT tail runs on the mutated state. -/
lemma quizTryBlock_create (env : Env) (store : Store) (d u : String)
    (hd : d ≠ "") (hu : u ≠ "")
    (hde : env.deckExists = true) (hw : store.watermark = none) (hq : store.quiz = none)
    (fcs : List Flashcard) (hf : env.deckFlashcards = some fcs) (hfc : fcs.length > 0)
    (r : GenResult) (hg : env.genResult = Except.ok r)
    (qa : List Question) (hs : quizShape r = some qa) (numOfQuiz : Option Nat) :
    quizTryBlock env store (some d) (some u) numOfQuiz =
      match selectTail env (createMutations env store u qa) numOfQuiz with
      | Except.error e => ⟨Except.error e, createMutations env store u qa, true⟩
      | Except.ok quizObject =>
        ⟨Except.ok (200, "Quiz creation for deck with id:" ++ d ++ " is successful",
          some quizObject), createMutations env store u qa, true⟩ := by
  simp [quizTryBlock, hd, hu, hde, hw, hq, hf, hfc, hg, hs, createMutations, addTmpFile]

/-- Evaluation of the try block on the EXTEND path with a successful,
well-shaped generation result. -/
lemma quizTryBlock_extend (env : Env) (store : Store) (d u : String)
    (hd : d ≠ "") (hu : u ≠ "")
    (q : StoredQuiz) (hq : store.quiz = some q)
    (hnf : env.newFlashcards.length > 0)
    (r : GenResult) (hg : env.genResult = Except.ok r)
    (qa : List Question) (hs : quizShape r = some qa) (numOfQuiz : Option Nat) :
    quizTryBlock env store (some d) (some u) numOfQuiz =
      match selectTail env (extendMutations store u q qa) numOfQuiz with
      | Except.error e => ⟨Except.error e, extendMutations store u q qa, true⟩
      | Except.ok quizObject =>
        ⟨Except.ok (200, "Quiz creation for new flashcards in deck " ++ d ++ " is successful",
          some quizObject), extendMutations store u q qa, true⟩ := by
  simp [quizTryBlock, hd, hu, hq, hnf, hg, hs, extendMutations, addTmpFile]

/-- Evaluation of the try block on the CREATE path when generation
succeeds but the result shape is bad: the unwrapped throw at line 120. -/
lemma quizTryBlock_create_badShape (env : Env) (store : Store) (d u : String)
    (hd : d ≠ "") (hu : u ≠ "")
    (hde : env.deckExists = true) (hw : store.watermark = none) (hq : store.quiz = none)
    (fcs : List Flashcard) (hf : env.deckFlashcards = some fcs) (hfc : fcs.length > 0)
    (r : GenResult) (hg : env.genResult = Except.ok r)
    (hs : quizShape r = none) (numOfQuiz : Option Nat) :
    quizTryBlock env store (some d) (some u) numOfQuiz =
      ⟨Except.error (jsError "Invalid AI response: quiz_data is missing or not an array"),
        addTmpFile store (tmpQuizFile u), true⟩ := by
  simp [quizTryBlock, hd, hu, hde, hw, hq, hf, hfc, hg, hs]

/-- Evaluation of the try block on the EXTEND path when generation
succeeds but the result shape is bad: the inner try catches the shape
throw and rethrows AI_GENERATION_FAILED (lines 183-190). -/
lemma quizTryBlock_extend_badShape (env : Env) (store : Store) (d u : String)
    (hd : d ≠ "") (hu : u ≠ "")
    (q : StoredQuiz) (hq : store.quiz = some q)
    (hnf : env.newFlashcards.length > 0)
    (r : GenResult) (hg : env.genResult = Except.ok r)
    (hs : quizShape r = none) (numOfQuiz : Option Nat) :
    quizTryBlock env store (some d) (some u) numOfQuiz =
      ⟨Except.error (jsError "AI_GENERATION_FAILED"),
        addTmpFile store (tmpQuizFile u), true⟩ := by
  simp [quizTryBlock, hd, hu, hq, hnf, hg, hs]

/-- The SELECT tail fails with the EXCEEDS error exactly when the
computed count exceeds the shuffled length. -/
lemma selectTail_exceeds (env : Env) (store : Store) (numOfQuiz : Option Nat)
    (q : StoredQuiz) (hq : store.quiz = some q)
    (hx : numToReturnOf numOfQuiz (env.shuffle q.questions).length >
      (env.shuffle q.questions).length) :
    selectTail env store numOfQuiz = Except.error exceedsError := by
  simp [selectTail, hq, selectQuestions, hx]

/-- The final store and generation flag pass unchanged through the
catch wrapper: the catch block classifies the error but performs no
compensating write. -/
lemma geminiQuizService_store_eq (env : Env) (store : Store) (deckId id : Option String)
    (numOfQuiz : Option Nat) :
    (geminiQuizService env store deckId id numOfQuiz).store =
      (quizTryBlock env store deckId id numOfQuiz).store ∧
    (geminiQuizService env store deckId id numOfQuiz).calledGen =
      (quizTryBlock env store deckId id numOfQuiz).calledGen := by
  unfold geminiQuizService applyCatch
  rcases h : (quizTryBlock env store deckId id numOfQuiz).outcome with e | ⟨st, msg, dta⟩ <;>
    simp [h]

/-! ### Concrete fixtures used by witnesses and counterexamples -/

/-- A concrete question. -/
def q1 : Question := ⟨"Q1", "f1"⟩

/-- A concrete flashcard. -/
def fc1 : Flashcard := ⟨"f1", "t1", "df1"⟩

/-- A deck with no quiz and no watermark. -/
def storeEmpty : Store := ⟨none, none, []⟩

/-- A deck with a one-question quiz and a stamped watermark. -/
def storeWithQuiz : Store := ⟨some ⟨"qz1", [q1], 0, 0⟩, some 0, []⟩

/-- The inconsistent state of C3: watermark present, no quiz document. -/
def storeWatermarkOnly : Store := ⟨none, some 5, []⟩

/-- A healthy environment: deck exists with one flashcard, generation
succeeds with one well-shaped question, no new flashcards. -/
def envOkNoNew : Env := ⟨true, some [fc1], Except.ok ⟨some ⟨some [q1]⟩⟩, [], "newq", fun l => l⟩

/-- As `envOkNoNew` but one new flashcard was found. -/
def envOkOneNew : Env := ⟨true, some [fc1], Except.ok ⟨some ⟨some [q1]⟩⟩, [fc1], "newq", fun l => l⟩

/-- Generation succeeds but the result carries no quiz_data, no new
flashcards. -/
def envBadShapeNoNew : Env := ⟨true, some [fc1], Except.ok ⟨none⟩, [], "newq", fun l => l⟩

/-- Generation succeeds but the result carries no quiz_data, one new
flashcard. -/
def envBadShapeOneNew : Env := ⟨true, some [fc1], Except.ok ⟨none⟩, [fc1], "newq", fun l => l⟩

/-! ### C1 -/

/-- C1 (amended): in each of the three paths (reuse, create, extend), a
requested count exceeding the available questions makes the service
throw the error whose `name` is EXCEEDS_AVAILABLE_CARDS — but the catch
switch tests `error.message`, which holds the human-readable sentence,
so the error lands in the default case: the envelope carries HTTP 500
and the generic server-error message, not 400. -/
theorem C1_exceeds_count_maps_to_500 :
    (∀ (env : Env) (store : Store) (d u : String) (q : StoredQuiz) (numOfQuiz : Option Nat),
      d ≠ "" → u ≠ "" → store.quiz = some q → env.newFlashcards = [] →
      numToReturnOf numOfQuiz (env.shuffle q.questions).length >
        (env.shuffle q.questions).length →
      (geminiQuizService env store (some d) (some u) numOfQuiz).status = 500 ∧
      (geminiQuizService env store (some d) (some u) numOfQuiz).message =
        "A server-side error has occurred" ∧
      (geminiQuizService env store (some d) (some u) numOfQuiz).data = none) ∧
    (∀ (env : Env) (store : Store) (d u : String) (fcs : List Flashcard)
      (r : GenResult) (qa : List Question) (numOfQuiz : Option Nat),
      d ≠ "" → u ≠ "" → env.deckExists = true → store.watermark = none →
      store.quiz = none → env.deckFlashcards = some fcs → fcs.length > 0 →
      env.genResult = Except.ok r → quizShape r = some qa →
      numToReturnOf numOfQuiz (env.shuffle qa).length > (env.shuffle qa).length →
      (geminiQuizService env store (some d) (some u) numOfQuiz).status = 500 ∧
      (geminiQuizService env store (some d) (some u) numOfQuiz).message =
        "A server-side error has occurred" ∧
      (geminiQuizService env store (some d) (some u) numOfQuiz).data = none) ∧
    (∀ (env : Env) (store : Store) (d u : String) (q : StoredQuiz)
      (r : GenResult) (qa : List Question) (numOfQuiz : Option Nat),
      d ≠ "" → u ≠ "" → store.quiz = some q → env.newFlashcards.length > 0 →
      env.genResult = Except.ok r → quizShape r = some qa →
      numToReturnOf numOfQuiz (env.shuffle (q.questions ++ qa)).length >
        (env.shuffle (q.questions ++ qa)).length →
      (geminiQuizService env store (some d) (some u) numOfQuiz).status = 500 ∧
      (geminiQuizService env store (some d) (some u) numOfQuiz).message =
        "A server-side error has occurred" ∧
      (geminiQuizService env store (some d) (some u) numOfQuiz).data = none) := by
  refine ⟨?_, ?_, ?_⟩
  · intro env store d u q n hd hu hq hnf hx
    unfold geminiQuizService
    rw [quizTryBlock_reuse env store d u hd hu q hq hnf n,
        selectTail_exceeds env store n q hq hx]
    exact ⟨rfl, rfl, rfl⟩
  · intro env store d u fcs r qa n hd hu hde hw hq hf hfc hg hs hx
    unfold geminiQuizService
    rw [quizTryBlock_create env store d u hd hu hde hw hq fcs hf hfc r hg qa hs n,
        selectTail_exceeds env (createMutations env store u qa) n
          ⟨env.newQuizId, qa, timeStamp, timeStamp⟩ rfl hx]
    exact ⟨rfl, rfl, rfl⟩
  · intro env store d u q r qa n hd hu hq hnf hg hs hx
    unfold geminiQuizService
    rw [quizTryBlock_extend env store d u hd hu q hq hnf r hg qa hs n,
        selectTail_exceeds env (extendMutations store u q qa) n
          { q with questions := q.questions ++ qa } rfl hx]
    exact ⟨rfl, rfl, rfl⟩

/-- Witness for C1 at a concrete input: a one-question quiz, no new
flashcards, requested count 5; the envelope is 500. -/
theorem C1_exceeds_witness :
    (geminiQuizService envOkNoNew storeWithQuiz (some "d1") (some "u1") (some 5)).status = 500 ∧
    (geminiQuizService envOkNoNew storeWithQuiz (some "d1") (some "u1") (some 5)).message =
      "A server-side error has occurred" := by
  have h := C1_exceeds_count_maps_to_500.1 envOkNoNew storeWithQuiz "d1" "u1"
    ⟨"qz1", [q1], 0, 0⟩ (some 5) (by decide) (by decide) rfl rfl (by decide)
  exact ⟨h.1, h.2.1⟩

/-- Counterexample for C1 as stated: a concrete request whose count (5)
exceeds the single available question fails, but the returned envelope
has status 500, not 400. -/
theorem C1_status_counterexample :
    (geminiQuizService envOkNoNew storeWithQuiz (some "d1") (some "u1") (some 5)).status ≠ 400 ∧
    (geminiQuizService envOkNoNew storeWithQuiz (some "d1") (some "u1") (some 5)).status = 500 := by
  decide

/-! ### C2 -/

/-- C2 (amended): the shape predicate applied to the generation result
(`quiz_data` present and `quiz_data.quiz` an array) is the same
`quizShape` test in both paths, but the classification differs: in the
CREATE path the shape check sits outside the inner try, so a malformed
result throws the raw invalid-response error, which the catch switch
does not recognise — HTTP 500 with the generic message; in the
RECONCILE (extend) path the check sits inside the inner try, is caught
and rethrown as AI_GENERATION_FAILED — HTTP 502. -/
theorem C2_shape_error_classification :
    (∀ (env : Env) (store : Store) (d u : String) (fcs : List Flashcard)
      (r : GenResult) (numOfQuiz : Option Nat),
      d ≠ "" → u ≠ "" → env.deckExists = true → store.watermark = none →
      store.quiz = none → env.deckFlashcards = some fcs → fcs.length > 0 →
      env.genResult = Except.ok r → quizShape r = none →
      geminiQuizService env store (some d) (some u) numOfQuiz =
        { status := 500, request_owner_id := some u,
          message := "A server-side error has occurred", data := none,
          store := addTmpFile store (tmpQuizFile u), calledGen := true }) ∧
    (∀ (env : Env) (store : Store) (d u : String) (q : StoredQuiz)
      (r : GenResult) (numOfQuiz : Option Nat),
      d ≠ "" → u ≠ "" → store.quiz = some q → env.newFlashcards.length > 0 →
      env.genResult = Except.ok r → quizShape r = none →
      geminiQuizService env store (some d) (some u) numOfQuiz =
        { status := 502, request_owner_id := some u,
          message := "Quiz creation failed: AI_GENERATION_FAILED", data := none,
          store := addTmpFile store (tmpQuizFile u), calledGen := true }) := by
  constructor
  · intro env store d u fcs r n hd hu hde hw hq hf hfc hg hs
    unfold geminiQuizService
    rw [quizTryBlock_create_badShape env store d u hd hu hde hw hq fcs hf hfc r hg hs n]
    rfl
  · intro env store d u q r n hd hu hq hnf hg hs
    unfold geminiQuizService
    rw [quizTryBlock_extend_badShape env store d u hd hu q hq hnf r hg hs n]
    rfl

/-- Witness for C2 (amended) at concrete inputs: a malformed result on
the CREATE path yields 500; the same malformed result on the extend
path yields 502. -/
theorem C2_shape_witness :
    (geminiQuizService envBadShapeNoNew storeEmpty (some "d1") (some "u1") none).status = 500 ∧
    (geminiQuizService envBadShapeOneNew storeWithQuiz (some "d1") (some "u1") none).status = 502 := by
  have h1 := C2_shape_error_classification.1 envBadShapeNoNew storeEmpty "d1" "u1"
    [fc1] ⟨none⟩ none (by decide) (by decide) rfl rfl rfl rfl (by decide) rfl rfl
  have h2 := C2_shape_error_classification.2 envBadShapeOneNew storeWithQuiz "d1" "u1"
    ⟨"qz1", [q1], 0, 0⟩ ⟨none⟩ none (by decide) (by decide) rfl (by decide) rfl rfl
  rw [h1, h2]
  exact ⟨rfl, rfl⟩

/-- Counterexample for C2 as stated: on the CREATE path a malformed
generation result (missing quiz_data) produces HTTP 500 with the
generic server-error message — not AI_GENERATION_FAILED / 502 as in the
RECONCILE path. -/
theorem C2_create_path_counterexample :
    (geminiQuizService envBadShapeNoNew storeEmpty (some "d1") (some "u1") (some 5)).status ≠ 502 ∧
    (geminiQuizService envBadShapeNoNew storeEmpty (some "d1") (some "u1") (some 5)).status = 500 ∧
    (geminiQuizService envBadShapeNoNew storeEmpty (some "d1") (some "u1") (some 5)).message ≠
      "Quiz creation failed: AI_GENERATION_FAILED" ∧
    (geminiQuizService envBadShapeOneNew storeWithQuiz (some "d1") (some "u1") (some 5)).status = 502 := by
  decide

/-! ### C3 -/

/-- C3 (amended): when the deck carries a made_to_quiz_at watermark but
no multiple-choice quiz document exists, neither branch of the state
machine fires: the service takes no path at all and returns the
initialised 400 failure envelope — it does not read flashcards, invoke
generation, or write anything. -/
theorem C3_watermark_without_quiz_no_path (env : Env) (store : Store) (d u : String)
    (numOfQuiz : Option Nat) (hd : d ≠ "") (hu : u ≠ "")
    (hw : store.watermark.isSome = true) (hq : store.quiz = none) :
    geminiQuizService env store (some d) (some u) numOfQuiz =
      { status := 400, request_owner_id := some u, message := unsuccessfulMsg d,
        data := none, store := store, calledGen := false } := by
  unfold geminiQuizService
  rw [quizTryBlock_fallthrough env store d u hd hu hw hq numOfQuiz]
  rfl

/-- Witness for C3 (amended) at a concrete input. -/
theorem C3_no_path_witness :
    geminiQuizService envOkNoNew storeWatermarkOnly (some "d2") (some "u2") (some 7) =
      { status := 400, request_owner_id := some "u2", message := unsuccessfulMsg "d2",
        data := none, store := storeWatermarkOnly, calledGen := false } :=
  C3_watermark_without_quiz_no_path envOkNoNew storeWatermarkOnly "d2" "u2" (some 7)
    (by decide) (by decide) rfl rfl

/-- Counterexample for C3 as stated: on a concrete deck with the
watermark present and no quiz, the outcome is the untouched 400 failure
envelope with null data, no generation call and an unchanged store —
not a RECONCILE execution (which would answer 200 with quiz content on
this healthy environment, as the reuse path does when a quiz exists). -/
theorem C3_no_reconcile_counterexample :
    (geminiQuizService envOkNoNew storeWatermarkOnly (some "d1") (some "u1") none).status = 400 ∧
    (geminiQuizService envOkNoNew storeWatermarkOnly (some "d1") (some "u1") none).data = none ∧
    (geminiQuizService envOkNoNew storeWatermarkOnly (some "d1") (some "u1") none).calledGen = false ∧
    (geminiQuizService envOkNoNew storeWatermarkOnly (some "d1") (some "u1") none).store =
      storeWatermarkOnly ∧
    (geminiQuizService envOkNoNew storeWithQuiz (some "d1") (some "u1") none).status = 200 := by
  decide

/-! ### C4 -/

/-- C4: in every CREATE-path or extend-path execution in which the
count check fails, the persistence mutations — quiz creation with the
generated questions appended (CREATE) or question append to the
existing quiz (extend), plus the watermark update — have all been
performed before the check and survive it: the final store equals the
fully mutated store (`createMutations` / `extendMutations`), while the
envelope reports the failure; nothing is rolled back, because the
EXCEEDS check sits in the shared SELECT tail after all writes. -/
theorem C4_mutations_survive_failed_count_check :
    (∀ (env : Env) (store : Store) (d u : String) (fcs : List Flashcard)
      (r : GenResult) (qa : List Question) (numOfQuiz : Option Nat),
      d ≠ "" → u ≠ "" → env.deckExists = true → store.watermark = none →
      store.quiz = none → env.deckFlashcards = some fcs → fcs.length > 0 →
      env.genResult = Except.ok r → quizShape r = some qa →
      numToReturnOf numOfQuiz (env.shuffle qa).length > (env.shuffle qa).length →
      geminiQuizService env store (some d) (some u) numOfQuiz =
        { status := 500, request_owner_id := some u,
          message := "A server-side error has occurred", data := none,
          store := createMutations env store u qa, calledGen := true }) ∧
    (∀ (env : Env) (store : Store) (d u : String) (q : StoredQuiz)
      (r : GenResult) (qa : List Question) (numOfQuiz : Option Nat),
      d ≠ "" → u ≠ "" → store.quiz = some q → env.newFlashcards.length > 0 →
      env.genResult = Except.ok r → quizShape r = some qa →
      numToReturnOf numOfQuiz (env.shuffle (q.questions ++ qa)).length >
        (env.shuffle (q.questions ++ qa)).length →
      geminiQuizService env store (some d) (some u) numOfQuiz =
        { status := 500, request_owner_id := some u,
          message := "A server-side error has occurred", data := none,
          store := extendMutations store u q qa, calledGen := true }) := by
  constructor
  · intro env store d u fcs r qa n hd hu hde hw hq hf hfc hg hs hx
    unfold geminiQuizService
    rw [quizTryBlock_create env store d u hd hu hde hw hq fcs hf hfc r hg qa hs n,
        selectTail_exceeds env (createMutations env store u qa) n
          ⟨env.newQuizId, qa, timeStamp, timeStamp⟩ rfl hx]
    rfl
  · intro env store d u q r qa n hd hu hq hnf hg hs hx
    unfold geminiQuizService
    rw [quizTryBlock_extend env store d u hd hu q hq hnf r hg qa hs n,
        selectTail_exceeds env (extendMutations store u q qa) n
          { q with questions := q.questions ++ qa } rfl hx]
    rfl

/-- Witness for C4 at concrete inputs: requesting 9 of the 1 (create)
or 2 (extend) available questions fails the count check, yet the final
store holds the created quiz / the appended questions and the stamped
watermark. -/
theorem C4_mutations_witness :
    geminiQuizService envOkNoNew storeEmpty (some "d1") (some "u1") (some 9) =
      { status := 500, request_owner_id := some "u1",
        message := "A server-side error has occurred", data := none,
        store := createMutations envOkNoNew storeEmpty "u1" [q1], calledGen := true } ∧
    geminiQuizService envOkOneNew storeWithQuiz (some "d1") (some "u1") (some 9) =
      { status := 500, request_owner_id := some "u1",
        message := "A server-side error has occurred", data := none,
        store := extendMutations storeWithQuiz "u1" ⟨"qz1", [q1], 0, 0⟩ [q1],
        calledGen := true } := by
  constructor
  · exact C4_mutations_survive_failed_count_check.1 envOkNoNew storeEmpty "d1" "u1"
      [fc1] ⟨some ⟨some [q1]⟩⟩ [q1] (some 9)
      (by decide) (by decide) rfl rfl rfl rfl (by decide) rfl rfl (by decide)
  · exact C4_mutations_survive_failed_count_check.2 envOkOneNew storeWithQuiz "d1" "u1"
      ⟨"qz1", [q1], 0, 0⟩ ⟨some ⟨some [q1]⟩⟩ [q1] (some 9)
      (by decide) (by decide) rfl (by decide) rfl rfl (by decide)

/-! ### C7 -/

/-- The REUSE path touches neither the store nor the generation
capability, whatever the selection outcome. -/
lemma reuse_store_unchanged (env : Env) (store : Store) (d u : String)
    (numOfQuiz : Option Nat) (q : StoredQuiz)
    (hd : d ≠ "") (hu : u ≠ "") (hq : store.quiz = some q)
    (hnf : env.newFlashcards = []) :
    (geminiQuizService env store (some d) (some u) numOfQuiz).store = store ∧
    (geminiQuizService env store (some d) (some u) numOfQuiz).calledGen = false := by
  unfold geminiQuizService
  rw [quizTryBlock_reuse env store d u hd hu q hq hnf numOfQuiz]
  cases h : selectTail env store numOfQuiz <;> exact ⟨rfl, rfl⟩

/-- C7: on a deck that already has a quiz and no flashcards newer than
its last update, the call is a pure read: the persisted state is
unchanged (in particular the stored quiz is never truncated — only the
response payload carries the selected subset) and generation is never
invoked; a second call in the same situation leaves the same persisted
quiz again, so no duplicate questions can appear. -/
theorem C7_reuse_is_pure_read (env : Env) (store : Store) (d u : String)
    (numOfQuiz : Option Nat) (q : StoredQuiz)
    (hd : d ≠ "") (hu : u ≠ "") (hq : store.quiz = some q)
    (hnf : env.newFlashcards = []) :
    (geminiQuizService env store (some d) (some u) numOfQuiz).store = store ∧
    (geminiQuizService env store (some d) (some u) numOfQuiz).calledGen = false ∧
    ∀ (env2 : Env) (numOfQuiz2 : Option Nat), env2.newFlashcards = [] →
      (geminiQuizService env2 (geminiQuizService env store (some d) (some u) numOfQuiz).store
        (some d) (some u) numOfQuiz2).store = store ∧
      (geminiQuizService env2 (geminiQuizService env store (some d) (some u) numOfQuiz).store
        (some d) (some u) numOfQuiz2).calledGen = false := by
  obtain ⟨h1, h2⟩ := reuse_store_unchanged env store d u numOfQuiz q hd hu hq hnf
  refine ⟨h1, h2, ?_⟩
  intro env2 n2 hnf2
  rw [h1]
  exact reuse_store_unchanged env2 store d u n2 q hd hu hq hnf2

/-- Witness for C7 at a concrete input: two successive reuse calls on a
one-question quiz leave the persisted state untouched and never invoke
generation. -/
theorem C7_reuse_witness :
    (geminiQuizService envOkNoNew storeWithQuiz (some "d1") (some "u1") (some 1)).store =
      storeWithQuiz ∧
    (geminiQuizService envOkNoNew storeWithQuiz (some "d1") (some "u1") (some 1)).calledGen =
      false ∧
    (geminiQuizService envOkNoNew
      (geminiQuizService envOkNoNew storeWithQuiz (some "d1") (some "u1") (some 1)).store
      (some "d1") (some "u1") none).store = storeWithQuiz := by
  have h := C7_reuse_is_pure_read envOkNoNew storeWithQuiz "d1" "u1" (some 1)
    ⟨"qz1", [q1], 0, 0⟩ (by decide) (by decide) rfl rfl
  exact ⟨h.1, h.2.1, (h.2.2 envOkNoNew none rfl).1⟩

/-! ### C8 -/

/-- A concrete appropriate verdict. -/
def verdictOk : OverallVerdict := ⟨true, "content is appropriate", []⟩

/-- A concrete well-shaped moderation generation result. -/
def modGenOk : ModGenResult := ⟨some ⟨verdictOk⟩⟩

/-- A healthy moderation environment: deck found, generation succeeds,
both publish-request calls succeed. -/
def modEnvOk : ModEnv := ⟨Except.ok (some [fc1]), Except.ok modGenOk, Except.ok (), Except.ok ()⟩

/-- As `modEnvOk` but the publish-request persistence write fails. -/
def modEnvBadWrite : ModEnv :=
  ⟨Except.ok (some [fc1]), Except.ok modGenOk, Except.error "WRITE_FAILED", Except.ok ()⟩

/-- C8 (amended): the publish-request write is awaited on the response
path, not fire-and-forget: when the deck is found and generation yields
a well-shaped result, a failure of the awaited `createPublishRequest`
persistence call lands in the catch block, so the moderation response
becomes 500 with null data instead of the verdict payload — the
response does depend on the outcome of that write. -/
theorem C8_publish_write_affects_response (env : ModEnv) (tmp0 : List String)
    (deckId uid : String) (fcs : List Flashcard) (r : ModGenResult)
    (qd : ModQuizData) (m : String)
    (h1 : env.deckFlashcards = Except.ok (some fcs))
    (h2 : env.genResult = Except.ok r) (h3 : r.quiz_data = some qd)
    (h4 : env.publishWrite = Except.error m)
    (h5 : m ≠ "DECK_NOT_FOUND") (h6 : m ≠ "NO_VALID_FLASHCARDS") :
    (geminiModerationService env tmp0 deckId uid).status = 500 ∧
    (geminiModerationService env tmp0 deckId uid).data = none ∧
    (geminiModerationService env tmp0 deckId uid).message =
      "Moderation review failed: " ++ m := by
  simp [geminiModerationService, h1, h2, h3, h4, modCatch, h5, h6]

/-- Witness for C8 (amended) at a concrete input. -/
theorem C8_publish_write_witness :
    (geminiModerationService modEnvBadWrite [] "d1" "u1").status = 500 ∧
    (geminiModerationService modEnvBadWrite [] "d1" "u1").data = none := by
  have h := C8_publish_write_affects_response modEnvBadWrite [] "d1" "u1" [fc1]
    modGenOk ⟨verdictOk⟩ "WRITE_FAILED" rfl rfl rfl rfl (by decide) (by decide)
  exact ⟨h.1, h.2.1⟩

/-- Counterexample for C8 as stated: two environments identical except
for the outcome of the publish-request write produce different
moderation responses (200 with the verdict payload against 500 with
null data), so the response depends on that write. -/
theorem C8_fire_and_forget_counterexample :
    modEnvBadWrite.deckFlashcards = modEnvOk.deckFlashcards ∧
    modEnvBadWrite.genResult = modEnvOk.genResult ∧
    modEnvBadWrite.publishRead = modEnvOk.publishRead ∧
    modEnvOk.publishWrite = Except.ok () ∧
    modEnvBadWrite.publishWrite = Except.error "WRITE_FAILED" ∧
    (geminiModerationService modEnvOk [] "d1" "u1").status = 200 ∧
    (geminiModerationService modEnvOk [] "d1" "u1").data = some modGenOk ∧
    (geminiModerationService modEnvBadWrite [] "d1" "u1").status = 500 ∧
    (geminiModerationService modEnvBadWrite [] "d1" "u1").data = none :=
  ⟨rfl, rfl, rfl, rfl, rfl, rfl, rfl, rfl, rfl⟩

/-! ### C9 -/

/-- No execution of the quiz try block removes a tmp file: the tmp
directory contents only ever grow (by the staging write). -/
lemma quizTryBlock_tmp_monotone (env : Env) (store : Store) (deckId id : Option String)
    (numOfQuiz : Option Nat) (f : String) (h : f ∈ store.tmpFiles) :
    f ∈ (quizTryBlock env store deckId id numOfQuiz).store.tmpFiles := by
  simp only [quizTryBlock]
  repeat' split
  all_goals first
    | exact h
    | (simp only [addTmpFile]; split <;> simp [h])

/-- No execution of the moderation service removes a tmp file. -/
lemma modService_tmp_monotone (env : ModEnv) (tmp0 : List String) (d u : String)
    (f : String) (h : f ∈ tmp0) :
    f ∈ (geminiModerationService env tmp0 d u).tmpFiles := by
  simp only [geminiModerationService]
  repeat' split
  all_goals first
    | exact h
    | (simp only [modCatch, addTmp]; split <;> simp [h])

/-- C9 (amended): neither service ever removes a staged tmp file on any
exit path — the tmp directory contents at completion contain everything
present at entry (and, on the generation paths, additionally the file
just written): there is no cleanup. -/
theorem C9_tmp_files_never_removed :
    (∀ (env : Env) (store : Store) (deckId id : Option String) (numOfQuiz : Option Nat)
      (f : String), f ∈ store.tmpFiles →
      f ∈ (geminiQuizService env store deckId id numOfQuiz).store.tmpFiles) ∧
    (∀ (env : ModEnv) (tmp0 : List String) (d u : String) (f : String), f ∈ tmp0 →
      f ∈ (geminiModerationService env tmp0 d u).tmpFiles) := by
  constructor
  · intro env store deckId id numOfQuiz f h
    rw [(geminiQuizService_store_eq env store deckId id numOfQuiz).1]
    exact quizTryBlock_tmp_monotone env store deckId id numOfQuiz f h
  · exact modService_tmp_monotone

/-- Witness for C9 (amended): a pre-existing tmp file survives both a
quiz call and a moderation call. -/
theorem C9_tmp_witness :
    "old.txt" ∈ (geminiQuizService envOkNoNew ⟨some ⟨"qz1", [q1], 0, 0⟩, some 0, ["old.txt"]⟩
      (some "d1") (some "u1") none).store.tmpFiles ∧
    "old.txt" ∈ (geminiModerationService modEnvOk ["old.txt"] "d1" "u1").tmpFiles :=
  ⟨C9_tmp_files_never_removed.1 envOkNoNew ⟨some ⟨"qz1", [q1], 0, 0⟩, some 0, ["old.txt"]⟩
      (some "d1") (some "u1") none "old.txt" (by decide),
   C9_tmp_files_never_removed.2 modEnvOk ["old.txt"] "d1" "u1" "old.txt" (by decide)⟩

/-- Counterexample for C9 as stated: concrete successful executions of
both services complete with the staged tmp file still present — it is
not removed before the call completes. -/
theorem C9_tmp_persists_counterexample :
    (geminiQuizService envOkNoNew storeEmpty (some "d1") (some "u1") (some 1)).status = 200 ∧
    (geminiQuizService envOkNoNew storeEmpty (some "d1") (some "u1") (some 1)).store.tmpFiles =
      [tmpQuizFile "u1"] ∧
    (geminiModerationService modEnvOk [] "d1" "u1").status = 200 ∧
    (geminiModerationService modEnvOk [] "d1" "u1").tmpFiles = [tmpModFile "u1"] := by
  decide
